import Mathlib

/-!
Verification of the audio synthesis and mixing core of the
BlogToPodcast converter (`blog_to_podcast/agents/audio_generator.py`).

The embedding translates the source functions into executable Lean
definitions:

* `resolvePayload` embeds the payload-extraction part of
  `AudioGeneratorAgent._synthesize` (lines 103-153): the search over
  base64-encoded keys, then URL keys, then the raw-bytes fallback.
  External effects (base64 decoding, HTTP GET) are passed in as
  functions; the HTTP calls performed are returned as an event trace.
* `AudioSegment`, `segmentToFloatArray`, `normalizeLufs`,
  `standardizeSegment`, `clampPeak`/`postMix`, `appendSeg` embed the
  pure signal-processing helpers.  Samples are rationals; a gain in dB
  is modelled by the amplitude ratio it denotes, so `apply_gain(g)` is
  multiplication of every sample by `10^(g/20)`, supplied as a function
  `gainRatio` where the dB value itself matters.
* `runAgent` embeds `AudioGeneratorAgent._run` (one attempt; the
  `tenacity` retry wrapper is an external collaborator), producing an
  event trace that records the outbound TTS request, HTTP downloads,
  and the final export.
-/

namespace BlogToPodcast

/-- Byte strings are lists of byte values. -/
abbrev Bytes := List Nat

/-!
## Synthesis response model

`AudioGeneratorAgent._synthesize` normalizes the SDK response into a
mapping (`_resp_to_mapping`) and, for each candidate key, evaluates
`resp_map.get(key) or getattr(response, key, None)`.  A response is
therefore modelled by the mapping view, the attribute view, and the
optional raw-bytes identity of the response object itself.
-/

structure SynthResponse where
  respMap : String → Option String
  attr : String → Option String
  raw : Option Bytes

/-- Python `a or b` on optional strings: `None` and `""` are falsy. -/
def pyOr (a b : Option String) : Option String :=
  match a with
  | some v => if v = "" then b else some v
  | none => b

/-- The value the source binds for a key: `resp_map.get(k) or getattr(response, k, None)`. -/
def effVal (r : SynthResponse) (k : String) : Option String :=
  pyOr (r.respMap k) (r.attr k)

/-- Keys probed for an inline base64 payload (source line 123). -/
def encodedKeys : List String :=
  ["encoded_audio", "encodedAudio", "encodedAudioBase64", "encodedAudio64"]

/-- Keys probed for a downloadable URL (source line 135). -/
def urlKeys : List String :=
  ["audio_file", "audioFile", "url", "audio_url", "signedUrl"]

/-- First key in `ks` whose effective value is truthy (non-`None`, non-empty),
paired with that value.  Embeds the `for`/`if`/`break` pattern of the two
search loops in `_synthesize`. -/
def findTruthy (r : SynthResponse) : List String → Option (String × String)
  | [] => none
  | k :: ks =>
    match effVal r k with
    | some v => if v = "" then findTruthy r ks else some (k, v)
    | none => findTruthy r ks

/-- The typed error taxonomy of the spec, one constructor per raise site in
the source (`ValueError`/`RuntimeError`/`FileNotFoundError` messages). -/
inductive PipelineError where
  | emptyInput
  | payloadDecodeError
  | downloadError
  | noAudioPayloadError
  | decodeError
  | missingAsset (which : String)
deriving DecidableEq

/-- Observable external events of one `_run` attempt. -/
inductive Ev where
  | ttsRequest
  | httpDownload (url : String)
  | exportFile
deriving DecidableEq

/-- Final `if not audio_bytes: raise ValueError(...)` check (source line 152). -/
def checkPayload (bs : Bytes) : Except PipelineError Bytes :=
  if bs = [] then .error .noAudioPayloadError else .ok bs

/-- Payload extraction of `_synthesize` (source lines 103-153).
`b64` is `base64.b64decode` (`none` = raised), `httpGet` is
`requests.get` + `raise_for_status` (`none` = raised).  Returns the
resolved bytes or the raised error, together with the HTTP downloads
performed. -/
def resolvePayload (b64 : String → Option Bytes) (httpGet : String → Option Bytes)
    (r : SynthResponse) : Except PipelineError Bytes × List Ev :=
  match findTruthy r encodedKeys with
  | some (_, v) =>
    match b64 v with
    | some bs => (checkPayload bs, [])
    | none => (.error .payloadDecodeError, [])
  | none =>
    match findTruthy r urlKeys with
    | some (_, u) =>
      match httpGet u with
      | some bs => (checkPayload bs, [Ev.httpDownload u])
      | none => (.error .downloadError, [Ev.httpDownload u])
    | none =>
      match r.raw with
      | some bs => (checkPayload bs, [])
      | none => (.error .noAudioPayloadError, [])

/-!
## Audio segment model

Pydub's `AudioSegment` carries a frame rate, a sample width (bytes), a
channel count, and interleaved integer samples.  Samples are modelled
as rationals so that gain ratios are exact; gain in dB is applied via
the corresponding amplitude ratio `10^(g/20)`.
-/

structure AudioSegment where
  frameRate : Nat
  sampleWidth : Nat
  channels : Nat
  samples : List ℚ
deriving DecidableEq

/-- Consecutive groups of `c` samples: `numpy.reshape((-1, channels))`
viewed row by row.  On lengths divisible by `c` (always the case for
interleaved audio) this is exactly the reshape. -/
def chunkList (c : Nat) : List ℚ → List (List ℚ)
  | [] => []
  | x :: xs => (x :: xs.take (c - 1)) :: chunkList c (xs.drop (c - 1))
termination_by xs => xs.length
decreasing_by
  simp only [List.length_drop, List.length_cons]
  omega

/-- Mono fold of `_segment_to_float_array` (source lines 36-37): when the
segment has more than one channel, average each frame across channels. -/
def monoFold (s : AudioSegment) : List ℚ :=
  if s.channels > 1 then
    (chunkList s.channels s.samples).map (fun g => g.sum / (s.channels : ℚ))
  else s.samples

/-- The constant the source divides by: `float(np.iinfo(np.int16).max)`. -/
def int16Max : ℚ := 32767

/-- Embedding of `_segment_to_float_array` (source lines 34-41), including
the dead `max_int16 == 0` guard. -/
def segmentToFloatArray (s : AudioSegment) : List ℚ :=
  let array := monoFold s
  if int16Max = 0 then array else array.map (· / int16Max)

/-- Uniform amplitude scaling: `apply_gain(g)` with ratio `r = 10^(g/20)`. -/
def applyGainRatio (r : ℚ) (s : AudioSegment) : AudioSegment :=
  { s with samples := s.samples.map (· * r) }

/-- Embedding of `_normalize_lufs` (source lines 44-51).  `meter` stands
for `pyln.Meter(frame_rate).integrated_loudness`, `gainRatio` converts a
dB gain into the amplitude ratio `10^(g/20)`. -/
def normalizeLufs (meter : Nat → List ℚ → ℚ) (gainRatio : ℚ → ℚ)
    (s : AudioSegment) (targetLufs : ℚ) : AudioSegment :=
  let array := segmentToFloatArray s
  if array.any (· ≠ 0) then
    let loudness := meter s.frameRate array
    let gain := targetLufs - loudness
    applyGainRatio (gainRatio gain) s
  else s

/-- Peak absolute sample amplitude, `max(abs(sample) for sample in data)`. -/
def peakAmp (s : AudioSegment) : ℚ :=
  (s.samples.map (fun x => |x|)).foldr max 0

/-- Pydub `max_possible_amplitude`: `2 ** (sample_width * 8) / 2`. -/
def maxPossibleAmplitude (s : AudioSegment) : ℚ :=
  2 ^ (s.sampleWidth * 8) / 2

/-- The peak clamp of `_post_mix` (source lines 176-177) in the amplitude
domain: `max_dBFS > 0` holds exactly when the peak exceeds the maximum
representable amplitude, and `apply_gain(-max_dBFS)` scales every sample
by the ratio `maxPossibleAmplitude / peak`. -/
def clampPeak (s : AudioSegment) : AudioSegment :=
  if maxPossibleAmplitude s < peakAmp s then
    applyGainRatio (maxPossibleAmplitude s / peakAmp s) s
  else s

/-- Embedding of `_post_mix` (source lines 175-178): peak clamp, then
loudness normalization to the broadcast target. -/
def postMix (meter : Nat → List ℚ → ℚ) (gainRatio : ℚ → ℚ)
    (targetLufs : ℚ) (s : AudioSegment) : AudioSegment :=
  normalizeLufs meter gainRatio (clampPeak s) targetLufs

/-- Pydub `set_frame_rate`: identity when the rate already matches,
otherwise resample the data (`resample` stands for the converter) and
record the new rate. -/
def setFrameRate (resample : Nat → Nat → List ℚ → List ℚ)
    (rate : Nat) (s : AudioSegment) : AudioSegment :=
  if s.frameRate = rate then s
  else { s with frameRate := rate, samples := resample s.frameRate rate s.samples }

/-- Pydub `set_sample_width`: identity when the width already matches. -/
def setSampleWidth (widthConv : Nat → Nat → List ℚ → List ℚ)
    (width : Nat) (s : AudioSegment) : AudioSegment :=
  if s.sampleWidth = width then s
  else { s with sampleWidth := width, samples := widthConv s.sampleWidth width s.samples }

/-- Pydub `set_channels`: identity when the channel count already matches. -/
def setChannels (chanConv : Nat → Nat → List ℚ → List ℚ)
    (ch : Nat) (s : AudioSegment) : AudioSegment :=
  if s.channels = ch then s
  else { s with channels := ch, samples := chanConv s.channels ch s.samples }

/-- Embedding of `_standardize_segment` (source lines 54-59):
`set_frame_rate(44100).set_sample_width(2).set_channels(2)`. -/
def standardizeSegment (resample widthConv chanConv : Nat → Nat → List ℚ → List ℚ)
    (s : AudioSegment) : AudioSegment :=
  setChannels chanConv 2 (setSampleWidth widthConv 2 (setFrameRate resample 44100 s))

/-- A clip in the pipeline's canonical format (44100 Hz, stereo, 16-bit). -/
def isStandard (s : AudioSegment) : Prop :=
  s.frameRate = 44100 ∧ s.channels = 2 ∧ s.sampleWidth = 2

instance (s : AudioSegment) : Decidable (isStandard s) := by
  unfold isStandard
  infer_instance

/-- Pydub `+` (append with zero crossfade) for format-matched segments:
the data is concatenated.  All appends in `_run` happen after
`_standardize_segment`, so both operands share one format. -/
def appendSeg (a b : AudioSegment) : AudioSegment :=
  { a with samples := a.samples ++ b.samples }

/-- Frame count of a segment: `len(samples) / channels`; duration in
seconds is this divided by the frame rate. -/
def frameCount (s : AudioSegment) : ℚ :=
  (s.samples.length : ℚ) / (s.channels : ℚ)

/-!
## Run environment

`_run` interacts with the outside world through: the Murf TTS request
and the payload decoding steps, `AudioSegment.from_file` (ffmpeg
decoding), the filesystem (asset existence and decoded contents),
`pyloudnorm`'s meter, pydub's fades and format converters, and dB-ratio
arithmetic.  Each is a field of the environment. -/

structure RunEnv where
  b64 : String → Option Bytes
  httpGet : String → Option Bytes
  synthResp : SynthResponse
  decodeMp3 : Bytes → Option AudioSegment
  resample : Nat → Nat → List ℚ → List ℚ
  widthConv : Nat → Nat → List ℚ → List ℚ
  chanConv : Nat → Nat → List ℚ → List ℚ
  fadeIn : Nat → AudioSegment → AudioSegment
  fadeOut : Nat → AudioSegment → AudioSegment
  introExists : Bool
  outroExists : Bool
  introSeg : AudioSegment
  outroSeg : AudioSegment
  meter : Nat → List ℚ → ℚ
  gainRatio : ℚ → ℚ
  targetLufs : ℚ
  speechDeltaDb : ℚ
  musicDeltaDb : ℚ

/-- Embedding of `_synthesize` (source lines 90-160): issue the TTS
request, resolve the payload, parse the bytes with ffmpeg
(`RuntimeError` when parsing fails), and standardize.  The event trace
starts with the outbound TTS request. -/
def synthesizeFn (env : RunEnv) : Except PipelineError AudioSegment × List Ev :=
  (match (resolvePayload env.b64 env.httpGet env.synthResp).1 with
   | .error e => .error e
   | .ok bs =>
     match env.decodeMp3 bs with
     | some seg => .ok (standardizeSegment env.resample env.widthConv env.chanConv seg)
     | none => .error .decodeError,
   Ev.ttsRequest :: (resolvePayload env.b64 env.httpGet env.synthResp).2)

/-- Embedding of `_load_music` (source lines 162-173) after the
existence check: apply each fade only when its duration is positive,
then standardize. -/
def loadMusicSeg (env : RunEnv) (seg : AudioSegment) (fadeInMs fadeOutMs : Nat) : AudioSegment :=
  let seg := if 0 < fadeInMs then env.fadeIn fadeInMs seg else seg
  let seg := if 0 < fadeOutMs then env.fadeOut fadeOutMs seg else seg
  standardizeSegment env.resample env.widthConv env.chanConv seg

/-- Embedding of one attempt of `_run` (source lines 181-206).  The
input is `inputs.get("podcast_script")`; the result is the exported
segment (the file written to `output_path`) or the raised error,
together with the trace of external events. -/
def runAgent (env : RunEnv) (script : Option String) : Except PipelineError AudioSegment × List Ev :=
  match script with
  | none => (.error .emptyInput, [])
  | some text =>
    if text = "" then (.error .emptyInput, [])
    else
      match synthesizeFn env with
      | (.error e, evs) => (.error e, evs)
      | (.ok speechSeg, evs) =>
        let speech := normalizeLufs env.meter env.gainRatio speechSeg
          (env.targetLufs + env.speechDeltaDb)
        if ¬ env.introExists then (.error (.missingAsset "intro"), evs)
        else
          let introMusic := normalizeLufs env.meter env.gainRatio
            (loadMusicSeg env env.introSeg 2000 0) (env.targetLufs + env.musicDeltaDb)
          if ¬ env.outroExists then (.error (.missingAsset "outro"), evs)
          else
            let outroMusic := normalizeLufs env.meter env.gainRatio
              (loadMusicSeg env env.outroSeg 0 1500) (env.targetLufs + env.musicDeltaDb)
            let composite := appendSeg (appendSeg introMusic speech) outroMusic
            let finalAudio := postMix env.meter env.gainRatio env.targetLufs composite
            (.ok finalAudio, evs ++ [Ev.exportFile])

/-!
## Specification-side definition for the refinement claim on float conversion

The spec states that loudness measurement normalizes samples "by the
maximum representable integer amplitude for the clip's bit depth".
-/

/-- Maximum representable signed integer amplitude for a sample width of
`w` bytes: `2^(8w - 1) - 1` (32767 when `w = 2`). -/
def maxIntForWidth (w : Nat) : ℚ :=
  2 ^ (8 * w - 1) - 1

/-- The float conversion as the spec words it: mono fold by per-sample
channel averaging, then normalization by the maximum representable
integer amplitude for the clip's own bit depth. -/
def specFloatSamples (s : AudioSegment) : List ℚ :=
  (monoFold s).map (· / maxIntForWidth s.sampleWidth)

/-!
## Concrete fixtures used by witnesses and counterexamples
-/

/-- A response carrying both an inline base64 field and a URL field. -/
def respBoth : SynthResponse :=
  { respMap := fun k =>
      if k = "encodedAudio" then some "AAAA"
      else if k = "audio_url" then some "http://unreachable" else none
    attr := fun _ => none
    raw := none }

/-- A response whose inline field is present but empty, with a URL fallback. -/
def respEmptyInline : SynthResponse :=
  { respMap := fun k =>
      if k = "encodedAudio" then some ""
      else if k = "url" then some "http://fallback" else none
    attr := fun _ => none
    raw := none }

/-- A base64 decoder succeeding on the fixture payload. -/
def b64Demo : String → Option Bytes :=
  fun v => if v = "AAAA" then some [0, 0, 0] else none

/-- A base64 decoder that always raises. -/
def b64Fail : String → Option Bytes := fun _ => none

/-- A base64 decoder that decodes every value to zero bytes. -/
def b64Empty : String → Option Bytes := fun _ => some []

/-- An HTTP client whose every request fails (unreachable host). -/
def httpGetDemo : String → Option Bytes := fun _ => none

/-- A standardized 16-bit stereo segment used as decoded speech. -/
def segSpeech : AudioSegment := ⟨44100, 2, 2, [1000, 1000, -1000, -1000]⟩

/-- A 16-bit stereo segment whose peak exceeds full scale. -/
def segLoud : AudioSegment := ⟨44100, 2, 2, [40000, -10]⟩

/-- A 16-bit stereo segment whose peak is within full scale. -/
def segQuiet : AudioSegment := ⟨44100, 2, 2, [100, -5]⟩

/-- A standardized all-zero (silent) segment. -/
def segZero : AudioSegment := ⟨44100, 2, 2, [0, 0, 0, 0]⟩

/-- An 8-bit mono segment at its full-scale amplitude 127. -/
def seg8bit : AudioSegment := ⟨44100, 1, 1, [127]⟩

/-- A loudness meter fixture (constant reading). -/
def meterDemo : Nat → List ℚ → ℚ := fun _ _ => -14

/-- A dB-to-ratio fixture (unit gain everywhere). -/
def gainRatioDemo : ℚ → ℚ := fun _ => 1

/-- A run environment whose intro asset is missing while synthesis
succeeds: the TTS service answers with an inline payload that decodes
and parses. -/
def envDemo : RunEnv :=
  { b64 := b64Demo
    httpGet := httpGetDemo
    synthResp := respBoth
    decodeMp3 := fun _ => some segSpeech
    resample := fun _ _ xs => xs
    widthConv := fun _ _ xs => xs
    chanConv := fun _ _ xs => xs
    fadeIn := fun _ s => s
    fadeOut := fun _ s => s
    introExists := false
    outroExists := true
    introSeg := segQuiet
    outroSeg := segQuiet
    meter := meterDemo
    gainRatio := gainRatioDemo
    targetLufs := -14
    speechDeltaDb := 1
    musicDeltaDb := -1 }

/-!
## Theorems
-/

/-- C1: for every synthesis response holding both a non-empty inline
base64 field (among the recognized encoded keys) and a URL field (among
the recognized URL keys), no HTTP download is performed, and when the
inline field decodes to non-empty bytes those bytes are the payload
used. -/
theorem inline_payload_wins_no_download
    (b64 httpGet : String → Option Bytes) (r : SynthResponse) (k v k2 u : String)
    (hEnc : findTruthy r encodedKeys = some (k, v))
    (_hUrl : findTruthy r urlKeys = some (k2, u)) :
    (resolvePayload b64 httpGet r).2 = [] ∧
      ∀ bs, b64 v = some bs → bs ≠ [] → (resolvePayload b64 httpGet r).1 = .ok bs := by
  have key : resolvePayload b64 httpGet r =
      match b64 v with
      | some bs => (checkPayload bs, [])
      | none => (Except.error PipelineError.payloadDecodeError, []) := by
    simp only [resolvePayload, hEnc]
  rw [key]
  cases hb : b64 v with
  | none =>
    refine ⟨rfl, ?_⟩
    intro bs hbs
    exact absurd hbs (by simp)
  | some bs0 =>
    refine ⟨rfl, ?_⟩
    intro bs hbs hne
    injection hbs with h
    subst h
    simp [checkPayload, hne]

/-- Witness for C1 at the spec's own scenario: inline `encodedAudio`
plus unreachable `audio_url`; the decode is used and the trace shows no
download. -/
theorem inline_payload_wins_no_download_witness :
    (resolvePayload b64Demo httpGetDemo respBoth).2 = [] ∧
      (resolvePayload b64Demo httpGetDemo respBoth).1 = .ok [0, 0, 0] :=
  ⟨(inline_payload_wins_no_download b64Demo httpGetDemo respBoth
      "encodedAudio" "AAAA" "audio_url" "http://unreachable" (by decide) (by decide)).1,
   (inline_payload_wins_no_download b64Demo httpGetDemo respBoth
      "encodedAudio" "AAAA" "audio_url" "http://unreachable" (by decide) (by decide)).2
      [0, 0, 0] (by decide) (by decide)⟩

/-- C2: when a recognized inline key holds a non-empty value whose
base64 decode fails, the result is the fatal decode error with an empty
event trace: no URL search, no download, no raw-bytes fallback. -/
theorem inline_decode_failure_fatal
    (b64 httpGet : String → Option Bytes) (r : SynthResponse) (k v : String)
    (hEnc : findTruthy r encodedKeys = some (k, v))
    (hFail : b64 v = none) :
    resolvePayload b64 httpGet r = (.error .payloadDecodeError, []) := by
  simp only [resolvePayload, hEnc, hFail]

/-- Witness for C2: the fixture response with a failing decoder. -/
theorem inline_decode_failure_fatal_witness :
    resolvePayload b64Fail httpGetDemo respBoth = (.error .payloadDecodeError, []) :=
  inline_decode_failure_fatal b64Fail httpGetDemo respBoth
    "encodedAudio" "AAAA" (by decide) rfl

/-- C10: an inline value decoding to zero bytes yields the no-payload
error without consulting the URL or raw paths; and a recognized key
whose value is present but empty is skipped, the search falling through
to the remaining keys. -/
theorem empty_inline_payload_behavior :
    (∀ (b64 httpGet : String → Option Bytes) (r : SynthResponse) (k v : String),
        findTruthy r encodedKeys = some (k, v) → b64 v = some [] →
        resolvePayload b64 httpGet r = (.error .noAudioPayloadError, [])) ∧
      ∀ (r : SynthResponse) (k : String) (ks : List String),
        r.respMap k = some "" → r.attr k = none →
        findTruthy r (k :: ks) = findTruthy r ks := by
  constructor
  · intro b64 httpGet r k v hEnc hDec
    simp only [resolvePayload, hEnc, hDec]
    rfl
  · intro r k ks h1 h2
    simp [findTruthy, effVal, pyOr, h1, h2]

/-- Witness for C10: the fixture response under the zero-byte decoder,
and the empty-inline fixture falling through past its empty key. -/
theorem empty_inline_payload_behavior_witness :
    resolvePayload b64Empty httpGetDemo respBoth = (.error .noAudioPayloadError, []) ∧
      findTruthy respEmptyInline ("encodedAudio" :: ["encodedAudio64"]) =
        findTruthy respEmptyInline ["encodedAudio64"] :=
  ⟨empty_inline_payload_behavior.1 b64Empty httpGetDemo respBoth
      "encodedAudio" "AAAA" (by decide) rfl,
   empty_inline_payload_behavior.2 respEmptyInline "encodedAudio"
      ["encodedAudio64"] (by decide) rfl⟩

/-- C9: an empty or absent script raises the empty-input error with an
empty event trace: the remote text-to-speech service is never
contacted. -/
theorem empty_script_no_network (env : RunEnv) (script : Option String)
    (h : script = none ∨ script = some "") :
    runAgent env script = (.error .emptyInput, []) := by
  rcases h with h | h <;> subst h <;> rfl

/-- Witness for C9 at the empty script. -/
theorem empty_script_no_network_witness :
    runAgent envDemo (some "") = (.error .emptyInput, []) :=
  empty_script_no_network envDemo (some "") (Or.inr rfl)

/-- Counterexample to C3 as stated: with the fixture environment (intro
asset missing, synthesis succeeding) and a non-empty script, `_run`
does raise the missing-asset error, but the event trace at that point
already contains the TTS network request — the network call to the
synthesis service precedes the missing-asset check, contradicting
"before any network call". -/
theorem missing_intro_counterexample :
    (runAgent envDemo (some "hello")).1 = .error (.missingAsset "intro") ∧
      Ev.ttsRequest ∈ (runAgent envDemo (some "hello")).2 := by
  constructor
  · rfl
  · show Ev.ttsRequest ∈ [Ev.ttsRequest]
    exact List.mem_cons_self _ _

/-- C3 amended: for every run with a non-empty script in which
synthesis succeeds and the intro asset is missing, `_run` raises the
missing-asset error, but only after the synthesis network call: the
trace accumulated at the error is the synthesis trace, whose head is
the TTS request. -/
theorem missing_intro_raises_after_synthesis (env : RunEnv) (text : String)
    (seg : AudioSegment) (evs : List Ev)
    (hs : text ≠ "")
    (hok : synthesizeFn env = (.ok seg, evs))
    (hintro : env.introExists = false) :
    runAgent env (some text) = (.error (.missingAsset "intro"), evs) ∧
      Ev.ttsRequest ∈ evs := by
  constructor
  · simp [runAgent, hs, hok, hintro]
  · have h2 := congrArg Prod.snd hok
    simp only at h2
    rw [← h2]
    show Ev.ttsRequest ∈ Ev.ttsRequest :: (resolvePayload env.b64 env.httpGet env.synthResp).2
    exact List.mem_cons_self _ _

/-- Witness for the amended C3 at the fixture environment. -/
theorem missing_intro_raises_after_synthesis_witness :
    runAgent envDemo (some "hello") = (.error (.missingAsset "intro"), [Ev.ttsRequest]) ∧
      Ev.ttsRequest ∈ [Ev.ttsRequest] :=
  missing_intro_raises_after_synthesis envDemo "hello" segSpeech [Ev.ttsRequest]
    (by decide) rfl rfl

/-- Counterexample to C4 as stated: an 8-bit mono clip at its own
full-scale amplitude 127.  The spec's conversion normalizes by the
clip's own bit-depth maximum (yielding 1), while the source divides by
the int16 maximum 32767 whatever the sample width is. -/
theorem float_normalization_counterexample :
    segmentToFloatArray seg8bit ≠ specFloatSamples seg8bit := by
  unfold segmentToFloatArray specFloatSamples monoFold seg8bit int16Max maxIntForWidth
  norm_num

/-- C4 amended: loudness measurement folds to mono by per-sample
channel averaging, but always normalizes by the int16 maximum 32767
regardless of the clip's sample width; this coincides with
normalization by the clip's own bit-depth maximum exactly when the
sample width is 2 bytes. -/
theorem float_conversion_int16_normalization (s : AudioSegment)
    (h : s.sampleWidth = 2) :
    segmentToFloatArray s = specFloatSamples s := by
  unfold segmentToFloatArray specFloatSamples
  rw [h]
  norm_num [int16Max, maxIntForWidth]

/-- Witness for the amended C4 at a 16-bit clip. -/
theorem float_conversion_int16_normalization_witness :
    segmentToFloatArray segQuiet = specFloatSamples segQuiet :=
  float_conversion_int16_normalization segQuiet rfl

/-- Scaling every sample by a nonnegative ratio scales the peak
amplitude by the same ratio. -/
theorem peakAmp_applyGainRatio (r : ℚ) (hr : 0 ≤ r) (s : AudioSegment) :
    peakAmp (applyGainRatio r s) = r * peakAmp s := by
  unfold peakAmp applyGainRatio
  simp only
  induction s.samples with
  | nil => simp
  | cons x xs ih =>
    simp only [List.map_cons, List.foldr_cons, ih, abs_mul, abs_of_nonneg hr,
      mul_max_of_nonneg _ _ hr, mul_comm |x| r]

/-- C5: the peak clamp is the identity when the peak is within full
scale, otherwise uniform attenuation brings the peak back within full
scale; and the final mix applies the clamp before loudness
normalization. -/
theorem clamp_peak_spec (meter : Nat → List ℚ → ℚ) (gainRatio : ℚ → ℚ)
    (target : ℚ) (s : AudioSegment) :
    (peakAmp s ≤ maxPossibleAmplitude s → clampPeak s = s) ∧
      (maxPossibleAmplitude s < peakAmp s → peakAmp (clampPeak s) ≤ maxPossibleAmplitude s) ∧
      postMix meter gainRatio target s = normalizeLufs meter gainRatio (clampPeak s) target := by
  refine ⟨?_, ?_, rfl⟩
  · intro h
    unfold clampPeak
    rw [if_neg (not_lt.mpr h)]
  · intro h
    have hmax : (0 : ℚ) < maxPossibleAmplitude s := by
      unfold maxPossibleAmplitude
      positivity
    have hpeak : (0 : ℚ) < peakAmp s := lt_trans hmax h
    unfold clampPeak
    rw [if_pos h, peakAmp_applyGainRatio _ (le_of_lt (div_pos hmax hpeak)) s,
      div_mul_cancel₀ _ (ne_of_gt hpeak)]

/-- Witness for C5: the quiet fixture is untouched, the loud fixture is
brought back within full scale. -/
theorem clamp_peak_spec_witness :
    clampPeak segQuiet = segQuiet ∧
      peakAmp (clampPeak segLoud) ≤ maxPossibleAmplitude segLoud := by
  have hq : peakAmp segQuiet ≤ maxPossibleAmplitude segQuiet := by
    show |(100 : ℚ)| ⊔ (|(-5 : ℚ)| ⊔ 0) ≤ 2 ^ (2 * 8) / 2
    rw [abs_of_nonneg (by norm_num : (0 : ℚ) ≤ 100),
      abs_of_nonpos (by norm_num : (-5 : ℚ) ≤ 0), max_le_iff, max_le_iff]
    norm_num
  have hl : maxPossibleAmplitude segLoud < peakAmp segLoud := by
    show (2 : ℚ) ^ (2 * 8) / 2 < |(40000 : ℚ)| ⊔ (|(-10 : ℚ)| ⊔ 0)
    rw [abs_of_nonneg (by norm_num : (0 : ℚ) ≤ 40000),
      abs_of_nonpos (by norm_num : (-10 : ℚ) ≤ 0)]
    calc (2 : ℚ) ^ (2 * 8) / 2 < 40000 := by norm_num
    _ ≤ 40000 ⊔ ((10 : ℚ) ⊔ 0) := le_max_left _ _
  exact ⟨(clamp_peak_spec meterDemo gainRatioDemo (-14) segQuiet).1 hq,
    (clamp_peak_spec meterDemo gainRatioDemo (-14) segLoud).2.1 hl⟩

/-- Every element of every chunk comes from the original list. -/
theorem chunkList_mem_subset (c : Nat) (xs : List ℚ) (g : List ℚ)
    (hg : g ∈ chunkList c xs) : ∀ x ∈ g, x ∈ xs := by
  match xs with
  | [] => simp [chunkList] at hg
  | y :: ys =>
    rw [chunkList] at hg
    rcases List.mem_cons.mp hg with h | h
    · subst h
      intro x hx
      rcases List.mem_cons.mp hx with h | h
      · exact h ▸ List.mem_cons_self _ _
      · exact List.mem_cons_of_mem _ (List.take_subset _ _ h)
    · intro x hx
      have hrec := chunkList_mem_subset c (ys.drop (c - 1)) g h x hx
      exact List.mem_cons_of_mem _ (List.drop_subset _ _ hrec)
termination_by xs.length
decreasing_by simp only [List.length_drop, List.length_cons]; omega

/-- An all-zero segment converts to an all-zero float array. -/
theorem segmentToFloatArray_zero (s : AudioSegment) (h : ∀ x ∈ s.samples, x = 0) :
    ∀ y ∈ segmentToFloatArray s, y = 0 := by
  have h16 : ¬ (int16Max = 0) := by norm_num [int16Max]
  have hmono : ∀ z ∈ monoFold s, z = 0 := by
    unfold monoFold
    split
    · intro z hz
      rw [List.mem_map] at hz
      obtain ⟨g, hg, hgz⟩ := hz
      have hzero : ∀ x ∈ g, x = 0 := fun x hx =>
        h x (chunkList_mem_subset s.channels s.samples g hg x hx)
      rw [← hgz, List.sum_eq_zero hzero, zero_div]
    · exact h
  unfold segmentToFloatArray
  rw [if_neg h16]
  intro y hy
  rw [List.mem_map] at hy
  obtain ⟨z, hz, hzy⟩ := hy
  rw [← hzy, hmono z hz, zero_div]

/-- C6: loudness normalization of an all-zero clip is the identity for
every meter, gain model and target: the silent clip is returned
bit-identical, with no error and no NaN gain. -/
theorem normalize_silence_identity (meter : Nat → List ℚ → ℚ) (gainRatio : ℚ → ℚ)
    (s : AudioSegment) (target : ℚ) (h : ∀ x ∈ s.samples, x = 0) :
    normalizeLufs meter gainRatio s target = s := by
  unfold normalizeLufs
  rw [if_neg]
  intro hc
  rw [List.any_eq_true] at hc
  obtain ⟨y, hy, hp⟩ := hc
  have hy0 := segmentToFloatArray_zero s h y hy
  simp [hy0] at hp

/-- Witness for C6 at the silent fixture. -/
theorem normalize_silence_identity_witness :
    normalizeLufs meterDemo gainRatioDemo segZero (-14) = segZero :=
  normalize_silence_identity meterDemo gainRatioDemo segZero (-14) (by decide)

/-- The peak clamp preserves the sample count and channel count. -/
theorem clampPeak_shape (s : AudioSegment) :
    (clampPeak s).samples.length = s.samples.length ∧ (clampPeak s).channels = s.channels := by
  unfold clampPeak applyGainRatio
  split <;> simp

/-- Loudness normalization preserves the sample count and channel count. -/
theorem normalizeLufs_shape (meter : Nat → List ℚ → ℚ) (gainRatio : ℚ → ℚ)
    (s : AudioSegment) (target : ℚ) :
    (normalizeLufs meter gainRatio s target).samples.length = s.samples.length ∧
      (normalizeLufs meter gainRatio s target).channels = s.channels := by
  simp only [normalizeLufs, applyGainRatio]
  split <;> simp

/-- C7: the mix of three standardized clips is their concatenation in
the order intro, speech, outro, and the exported mix's frame count is
the sum of the three frame counts: the mastering stage trims nothing. -/
theorem mix_concatenation_duration (meter : Nat → List ℚ → ℚ) (gainRatio : ℚ → ℚ)
    (target : ℚ) (a b c : AudioSegment)
    (ha : isStandard a) (hb : isStandard b) (hc : isStandard c) :
    (appendSeg (appendSeg a b) c).samples = a.samples ++ b.samples ++ c.samples ∧
      frameCount (postMix meter gainRatio target (appendSeg (appendSeg a b) c)) =
        frameCount a + frameCount b + frameCount c := by
  refine ⟨rfl, ?_⟩
  have hshape1 := clampPeak_shape (appendSeg (appendSeg a b) c)
  have hshape2 := normalizeLufs_shape meter gainRatio
    (clampPeak (appendSeg (appendSeg a b) c)) target
  unfold frameCount postMix
  rw [hshape2.1, hshape2.2, hshape1.1, hshape1.2]
  show ((((a.samples ++ b.samples) ++ c.samples).length : ℚ)) / ((a.channels : ℚ)) = _
  rw [List.length_append, List.length_append, ha.2.1, hb.2.1, hc.2.1]
  push_cast
  ring

/-- Witness for C7 at three standardized fixtures. -/
theorem mix_concatenation_duration_witness :
    (appendSeg (appendSeg segQuiet segSpeech) segZero).samples =
        segQuiet.samples ++ segSpeech.samples ++ segZero.samples ∧
      frameCount (postMix meterDemo gainRatioDemo (-14)
          (appendSeg (appendSeg segQuiet segSpeech) segZero)) =
        frameCount segQuiet + frameCount segSpeech + frameCount segZero :=
  mix_concatenation_duration meterDemo gainRatioDemo (-14) segQuiet segSpeech segZero
    (by decide) (by decide) (by decide)

/-- The frame rate after standardization is always 44100. -/
theorem standardize_frameRate (resample widthConv chanConv : Nat → Nat → List ℚ → List ℚ)
    (s : AudioSegment) :
    (standardizeSegment resample widthConv chanConv s).frameRate = 44100 := by
  unfold standardizeSegment setFrameRate setSampleWidth setChannels
  split <;> split <;> split <;> simp_all

/-- The sample width after standardization is always 2. -/
theorem standardize_sampleWidth (resample widthConv chanConv : Nat → Nat → List ℚ → List ℚ)
    (s : AudioSegment) :
    (standardizeSegment resample widthConv chanConv s).sampleWidth = 2 := by
  unfold standardizeSegment setFrameRate setSampleWidth setChannels
  split <;> split <;> split <;> simp_all

/-- The channel count after standardization is always 2. -/
theorem standardize_channels (resample widthConv chanConv : Nat → Nat → List ℚ → List ℚ)
    (s : AudioSegment) :
    (standardizeSegment resample widthConv chanConv s).channels = 2 := by
  unfold standardizeSegment setFrameRate setSampleWidth setChannels
  split <;> split <;> split <;> simp_all

/-- C8: standardization is idempotent for every choice of resampler and
format converters: a second application finds every format field
already at its target value and changes nothing. -/
theorem standardize_idempotent (resample widthConv chanConv : Nat → Nat → List ℚ → List ℚ)
    (s : AudioSegment) :
    standardizeSegment resample widthConv chanConv
        (standardizeSegment resample widthConv chanConv s) =
      standardizeSegment resample widthConv chanConv s := by
  set t := standardizeSegment resample widthConv chanConv s with ht
  have hr : t.frameRate = 44100 := standardize_frameRate resample widthConv chanConv s
  have hw : t.sampleWidth = 2 := standardize_sampleWidth resample widthConv chanConv s
  have hch : t.channels = 2 := standardize_channels resample widthConv chanConv s
  show standardizeSegment resample widthConv chanConv t = t
  unfold standardizeSegment setFrameRate setSampleWidth setChannels
  rw [if_pos hr, if_pos hw, if_pos hch]

end BlogToPodcast
